import Mathlib

/-!
Verification development for the universal AJAX add-to-cart handler
(`src/assets/universal-ajax-cart.js`).

The development is a shallow embedding of the handler: the DOM state the
script reads and writes is an explicit record (`Doc`), network responses are
an environment record (`Env`), and each handler method of the
`UniversalCartHandler` class becomes a pure Lean function that returns the
updated DOM state together with an ordered trace of observable events
(`Ev`): network requests issued, console logs, simulated clicks, element
mutations, and scheduled timeouts.
-/

namespace AjaxCart

/-- Attribute list of a DOM element: ordered (name, value) pairs, as exposed
by `element.attributes`. -/
abbrev Attrs := List (String × String)

/-- Lookup of `element.getAttribute(name)`: first pair with the given name,
`none` when the attribute is absent. -/
def getAttr (attrs : Attrs) (name : String) : Option String :=
  (attrs.find? (fun p => p.1 == name)).map (fun p => p.2)

/-- Semantics of `element.setAttribute(name, v)`: replace the value of the
named attribute in place, or append the attribute at the end when absent. -/
def setAttr : Attrs → String → String → Attrs
  | [], n, v => [(n, v)]
  | p :: rest, n, v => if p.1 == n then (n, v) :: rest else p :: setAttr rest n v

/-- The attribute-copy loop of `refreshAndOpenCartDrawer`:
`Array.from(newCartElement.attributes).forEach(attr =>
currentCartElement.setAttribute(attr.name, attr.value))`. -/
def copyAttrs (live : Attrs) (frag : Attrs) : Attrs :=
  frag.foldl (fun acc p => setAttr acc p.1 p.2) live

/-- Longest leading run of decimal digits of a character list. -/
def leadingDigits : List Char → List Char
  | [] => []
  | c :: cs => if c.isDigit then c :: leadingDigits cs else []

/-- Numeric value of a list of decimal digit characters. -/
def digitsVal (ds : List Char) : Nat :=
  ds.foldl (fun a c => a * 10 + (c.toNat - 48)) 0

/-- JavaScript `parseInt(s)` on a string (decimal case): skip leading
whitespace, read an optional sign and then the longest digit prefix;
`none` models the `NaN` result when no digits are found.  (The automatic
hexadecimal radix for a `0x` prefix is not modelled; no claim depends on
it.) -/
def parseIntJS (s : String) : Option Int :=
  let l := s.toList.dropWhile (fun c => c == ' ' || c == '\t' || c == '\n' || c == '\r')
  let signAndRest : Int × List Char :=
    match l with
    | '-' :: rest => (-1, rest)
    | '+' :: rest => (1, rest)
    | _ => (1, l)
  let ds := leadingDigits signAndRest.2
  if ds.isEmpty then none
  else some (signAndRest.1 * (digitsVal ds : Int))

/-- A JavaScript value passed as the `quantity` argument of `addToCart`:
either a string taken from the form data or the number literal `1`. -/
inductive QVal
  | str (s : String)
  | num (n : Int)
deriving DecidableEq

/-- Semantics of `parseInt(quantity)` inside `addToCart`: a string goes
through `parseIntJS`; a number is converted to its decimal string first,
which for an integer parses back to itself.  `none` models `NaN`, which
`JSON.stringify` serialises as `null`. -/
def parseIntQ : QVal → Option Int
  | .str s => parseIntJS s
  | .num n => some n

/-- JavaScript substring test `s.includes(pat)`. -/
def strContains (s pat : String) : Bool :=
  (List.range (s.toList.length + 1)).any
    (fun i => (s.toList.drop i).take pat.toList.length == pat.toList)

/-- The interceptor's form filter:
`form.action && form.action.includes('/cart/add')`. -/
def isCartAddAction (action : String) : Bool :=
  action != "" && strContains action "/cart/add"

/-- One element matching `[data-cart-count]`: its identity and the current
value of its `data-cart-count` attribute. -/
structure CountElem where
  nodeId : Nat
  cartCount : String
deriving DecidableEq

/-- The `.cart-count-badge` span: identity, `textContent`, and the inline
`display` style that drives its visibility. -/
structure Badge where
  nodeId : Nat
  text : String
  display : String
deriving DecidableEq

/-- The live `cart-element` inside the drawer view: identity, attributes and
`innerHTML`. -/
structure CartElem where
  nodeId : Nat
  attrs : Attrs
  inner : String
deriving DecidableEq

/-- The `cart-element` found in the parsed drawer fragment: attributes and
`innerHTML`. -/
structure Frag where
  attrs : Attrs
  inner : String
deriving DecidableEq

/-- DOM state as seen through the queries the script performs.
`headerCart = some badges` means `.header--cart` exists and `badges` are its
`.cart-count-badge` children in document order (`querySelector` returns the
head).  `drawerView` is the existence of `[data-drawer-view="cart-drawer"]`,
`drawerContainer` the existence of its `closest('[data-drawer]')`,
`cartTrigger` of `[data-cart-drawer-trigger]`, `headerCartLink` of
`.header--cart a`.  `currentCartElem` is the result of
`document.querySelector('[data-drawer-view="cart-drawer"] cart-element')`.
`nextId` supplies fresh node identities for created elements. -/
structure Doc where
  countElems : List CountElem
  headerCart : Option (List Badge)
  headerCartLink : Bool
  drawerView : Bool
  drawerContainer : Bool
  drawerOpen : Bool
  bodyOverflowHidden : Bool
  cartTrigger : Bool
  currentCartElem : Option CartElem
  nextId : Nat
deriving DecidableEq

/-- Outcome of the `fetch(origin + '/?sections=cart-drawer')` step followed
by `response.json()` and the fragment parse: the fetch or JSON parse may
reject; otherwise `data['cart-drawer']` may be falsy; otherwise the parsed
fragment's `cart-element` query may or may not find an element. -/
inductive SectionsResp
  | fetchError
  | noHtml
  | html (cartElem : Option Frag)
deriving DecidableEq

/-- Network environment for one pipeline run.  `addFetch = none` means the
`POST /cart/add.js` fetch rejects; `some (ok, jsonOk)` gives `response.ok`
and whether `response.json()` succeeds.  `cartRead = none` means
`fetch('/cart.js')` or its `.json()` rejects; `some n` is the response's
`item_count`. -/
structure Env where
  addFetch : Option (Bool × Bool)
  cartRead : Option Nat
  sections : SectionsResp
deriving DecidableEq

/-- Errors thrown inside `addToCart`.  `mutationFailed` is
`Error('Failed to add to cart')`, thrown on a non-success HTTP status. -/
inductive JsErr
  | mutationFailed
  | fetchRejected
  | jsonRejected
  | cartReadFailed
deriving DecidableEq

/-- Result of an `async` method: normal completion or a propagated error. -/
inductive CartResult
  | ok
  | err (e : JsErr)
deriving DecidableEq

/-- Observable events, in program order: network requests (`addReq` records
the JSON body fields `id` and `quantity`, with `none` for a `NaN` serialised
as `null`), console logs, the call into `openCartDrawer`, simulated clicks,
quick-add element mutations, and the `setTimeout` that re-enables the
quick-add control. -/
inductive Ev
  | addReq (id : String) (quantity : Option Int)
  | cartReq
  | sectionsReq
  | log (msg : String)
  | openDrawerInvoked
  | clickTrigger
  | clickHeaderLink
  | setBusy (v : Bool)
  | setDisabled (v : Bool)
  | scheduleRevert (ms : Nat)
deriving DecidableEq

/-- Recogniser for add-to-cart request events. -/
def isAddReq : Ev → Bool
  | .addReq _ _ => true
  | _ => false

/-- A freshly created badge: `document.createElement('span')` with the
class set and the inline `cssText` applied (whose `display: flex` gives the
initial display value), before `appendChild`. -/
def newBadge (nid : Nat) : Badge :=
  { nodeId := nid, text := "", display := "flex" }

/-- The count-dependent part of `updateCartCount` applied to the badge:
`count > 0` sets `textContent` and shows it, otherwise it is hidden. -/
def applyCount (count : Nat) (b : Badge) : Badge :=
  if 0 < count then { b with text := toString count, display := "flex" }
  else { b with display := "none" }

/-- Embedding of `updateCartCount(count)`: writes the count onto every
`[data-cart-count]` element, then, when `.header--cart` exists, looks up the
first `.cart-count-badge`, creating and appending one when none exists, and
applies the count to it. -/
def updateCartCount (count : Nat) (doc : Doc) : Doc :=
  let ces := doc.countElems.map (fun e => { e with cartCount := toString count })
  match doc.headerCart with
  | none => { doc with countElems := ces }
  | some badges =>
    match badges with
    | [] =>
      { doc with countElems := ces,
                 headerCart := some [applyCount count (newBadge doc.nextId)],
                 nextId := doc.nextId + 1 }
    | b :: rest =>
      { doc with countElems := ces,
                 headerCart := some (applyCount count b :: rest) }

/-- Methods 2 and 3 of `openCartDrawer`: click the explicit
`[data-cart-drawer-trigger]` when present, else the `.header--cart a` link
when present, else do nothing. -/
def openFallback (doc : Doc) : Doc × List Ev :=
  if doc.cartTrigger then (doc, [Ev.clickTrigger])
  else if doc.headerCartLink then (doc, [Ev.clickHeaderLink])
  else (doc, [])

/-- Embedding of `openCartDrawer()`: when the drawer view exists and its
enclosing `[data-drawer]` container is found, set `data-drawer-open="true"`
and suppress body overflow, and return; otherwise fall through to the click
fallbacks. -/
def openCartDrawer (doc : Doc) : Doc × List Ev :=
  if doc.drawerView then
    if doc.drawerContainer then
      ({ doc with drawerOpen := true, bodyOverflowHidden := true }, [])
    else openFallback doc
  else openFallback doc

/-- The merge step of `refreshAndOpenCartDrawer` when both the fragment's
and the live `cart-element` are found: the live node keeps its identity, its
`innerHTML` is replaced by the fragment's, and every fragment attribute is
copied onto it. -/
def mergeCartElem (cur : CartElem) (f : Frag) : CartElem :=
  { cur with inner := f.inner, attrs := copyAttrs cur.attrs f.attrs }

/-- Embedding of `refreshAndOpenCartDrawer()`: fetch the rendered
`cart-drawer` section; a rejection of the fetch or of `response.json()` is
caught by the surrounding `try` and logged (note that the
`this.openCartDrawer()` call sits inside the `try`, so it is skipped in that
case).  Otherwise, when the fragment HTML is present and both `cart-element`
nodes are found, merge them; in every non-throwing path `openCartDrawer` is
then invoked. -/
def refreshAndOpenCartDrawer (env : Env) (doc : Doc) : Doc × List Ev :=
  match env.sections with
  | .fetchError => (doc, [Ev.sectionsReq, Ev.log "Error refreshing cart:"])
  | .noHtml =>
    let r := openCartDrawer doc
    (r.1, Ev.sectionsReq :: Ev.openDrawerInvoked :: r.2)
  | .html fragElem =>
    let doc1 :=
      match fragElem, doc.currentCartElem with
      | some f, some cur => { doc with currentCartElem := some (mergeCartElem cur f) }
      | _, _ => doc
    let r := openCartDrawer doc1
    (r.1, Ev.sectionsReq :: Ev.openDrawerInvoked :: r.2)

/-- Output of `addToCart`: final DOM state, event trace, and whether the
`async` method resolved or rejected. -/
structure MutOut where
  doc : Doc
  evs : List Ev
  result : CartResult
deriving DecidableEq

/-- Embedding of `addToCart(variantId, quantity)`: POST the JSON body
`{id, quantity: parseInt(quantity)}`; throw `mutationFailed` on a
non-success status; otherwise parse the body, read `/cart.js`, update the
cart count, and refresh-and-open the drawer.  Every error is logged by the
`catch` and rethrown. -/
def addToCart (env : Env) (variantId : String) (q : QVal) (doc : Doc) : MutOut :=
  let reqEv := Ev.addReq variantId (parseIntQ q)
  match env.addFetch with
  | none =>
    { doc := doc, evs := [reqEv, Ev.log "Add to cart error:"],
      result := .err .fetchRejected }
  | some (ok, jsonOk) =>
    if !ok then
      { doc := doc, evs := [reqEv, Ev.log "Add to cart error:"],
        result := .err .mutationFailed }
    else if !jsonOk then
      { doc := doc, evs := [reqEv, Ev.log "Add to cart error:"],
        result := .err .jsonRejected }
    else
      match env.cartRead with
      | none =>
        { doc := doc, evs := [reqEv, Ev.cartReq, Ev.log "Add to cart error:"],
          result := .err .cartReadFailed }
      | some n =>
        let doc1 := updateCartCount n doc
        let r := refreshAndOpenCartDrawer env doc1
        { doc := r.1, evs := reqEv :: Ev.cartReq :: r.2, result := .ok }

/-- A submitted cart-add form as the handler reads it: the `action` URL and
the results of `formData.get('id')` and `formData.get('quantity')` (`none`
when the field is absent). -/
structure Form where
  action : String
  idField : Option String
  quantityField : Option String
deriving DecidableEq

/-- The quantity argument `formData.get('quantity') || 1`: the number `1`
when the field is absent or the empty string (both falsy), otherwise the
field's string value. -/
def quantityArg (q : Option String) : QVal :=
  match q with
  | none => .num 1
  | some s => if s == "" then .num 1 else .str s

/-- The quantity that ends up in the request body for a given form:
`parseInt` of `formData.get('quantity') || 1`. -/
def formQuantity (form : Form) : Option Int :=
  parseIntQ (quantityArg form.quantityField)

/-- Embedding of `handleFormSubmit(form)`: a falsy variant id (absent or
empty field) logs and aborts before any network call; otherwise `addToCart`
is awaited and its rejection is caught and logged. -/
def handleFormSubmit (env : Env) (form : Form) (doc : Doc) : Doc × List Ev :=
  match form.idField with
  | none => (doc, [Ev.log "No variant ID in form"])
  | some v =>
    if v == "" then (doc, [Ev.log "No variant ID in form"])
    else
      let out := addToCart env v (quantityArg form.quantityField) doc
      match out.result with
      | .ok => (out.doc, out.evs)
      | .err _ => (out.doc, out.evs ++ [Ev.log "Form submit error:"])

/-- Output of the document-level submit listener: DOM state, trace, and
whether `preventDefault` was called (i.e. navigation suppressed). -/
structure SubmitOut where
  doc : Doc
  evs : List Ev
  prevented : Bool
deriving DecidableEq

/-- Embedding of the submit listener installed by `init()`: a form whose
truthy `action` contains `/cart/add` has its default submission cancelled
and is handed to `handleFormSubmit`; any other form proceeds normally. -/
def onSubmit (env : Env) (form : Form) (doc : Doc) : SubmitOut :=
  if isCartAddAction form.action then
    let r := handleFormSubmit env form doc
    { doc := r.1, evs := r.2, prevented := true }
  else
    { doc := doc, evs := [], prevented := false }

/-- A `product-quick-add[data-form="false"]` element: its attributes (the
handler reads `data-id`; any other attributes, such as a quantity, are
ignored by it), whether `querySelector('button')` finds an inner button, and
that button's `disabled` flag. -/
structure QuickAddEl where
  attrs : Attrs
  hasButton : Bool
  buttonDisabled : Bool
deriving DecidableEq

/-- The revert applied to the quick-add element when the scheduled timeout
fires, and immediately in the `catch` branch: `aria-busy="false"` and the
button re-enabled. -/
def revertQuickAdd (el : QuickAddEl) : QuickAddEl :=
  { el with attrs := setAttr el.attrs "aria-busy" "false", buttonDisabled := false }

/-- The loading state set before the mutation call: `aria-busy="true"` and
the inner button disabled. -/
def busyQuickAdd (el : QuickAddEl) : QuickAddEl :=
  { el with attrs := setAttr el.attrs "aria-busy" "true", buttonDisabled := true }

/-- Output of `handleQuickAdd`: DOM state, the quick-add element's state
when the handler settles, the trace, and `pendingRevert = some ms` when a
`setTimeout(ms)` applying `revertQuickAdd` is still scheduled. -/
structure QuickAddOut where
  doc : Doc
  el : QuickAddEl
  evs : List Ev
  pendingRevert : Option Nat
deriving DecidableEq

/-- Embedding of `handleQuickAdd(element)`: a falsy `data-id` or a missing
inner button aborts before any state change or network call; otherwise the
element is marked busy and the button disabled, `addToCart(variantId, 1)` is
awaited, and on success a 1000 ms timeout is scheduled to revert the loading
state while on failure it is reverted immediately. -/
def handleQuickAdd (env : Env) (el : QuickAddEl) (doc : Doc) : QuickAddOut :=
  let vid? := getAttr el.attrs "data-id"
  match vid? with
  | none => { doc := doc, el := el, evs := [], pendingRevert := none }
  | some vid =>
    if vid == "" then { doc := doc, el := el, evs := [], pendingRevert := none }
    else if !el.hasButton then { doc := doc, el := el, evs := [], pendingRevert := none }
    else
      let el1 := busyQuickAdd el
      let out := addToCart env vid (.num 1) doc
      match out.result with
      | .ok =>
        { doc := out.doc, el := el1,
          evs := Ev.setBusy true :: Ev.setDisabled true :: out.evs ++ [Ev.scheduleRevert 1000],
          pendingRevert := some 1000 }
      | .err _ =>
        { doc := out.doc, el := revertQuickAdd el1,
          evs := Ev.setBusy true :: Ev.setDisabled true :: out.evs ++
                   [Ev.log "Quick add error:", Ev.setBusy false, Ev.setDisabled false],
          pendingRevert := none }

/-! Helper lemmas about attribute lists. -/

theorem getAttr_setAttr_self (a : Attrs) (n v : String) :
    getAttr (setAttr a n v) n = some v := by
  induction a with
  | nil => simp [getAttr, setAttr]
  | cons p t ih =>
    by_cases h : p.1 = n
    · simp [setAttr, h, getAttr]
    · have hb : (p.1 == n) = false := by simp [h]
      simp only [setAttr, hb, if_neg]
      simpa [getAttr, hb] using ih

theorem getAttr_setAttr_ne (a : Attrs) (n m v : String) (h : m ≠ n) :
    getAttr (setAttr a n v) m = getAttr a m := by
  induction a with
  | nil => simp [getAttr, setAttr, Ne.symm h]
  | cons p t ih =>
    by_cases hp : p.1 = n
    · simp [setAttr, hp, getAttr, Ne.symm h]
    · have hb : (p.1 == n) = false := by simp [hp]
      by_cases hm : p.1 = m
      · have hbm : (p.1 == m) = true := by simp [hm]
        simp [setAttr, hb, getAttr, List.find?, hbm]
      · have hbm : (p.1 == m) = false := by simp [hm]
        simp only [setAttr, hb, if_neg]
        simpa [getAttr, hbm] using ih

theorem copyAttrs_cons (live : Attrs) (p : String × String) (rest : Attrs) :
    copyAttrs live (p :: rest) = copyAttrs (setAttr live p.1 p.2) rest := rfl

theorem getAttr_copyAttrs_not_mem :
    ∀ (frag live : Attrs) (n : String), (∀ p ∈ frag, p.1 ≠ n) →
      getAttr (copyAttrs live frag) n = getAttr live n := by
  intro frag
  induction frag with
  | nil => intro live n _; rfl
  | cons q rest ih =>
    intro live n h
    rw [copyAttrs_cons]
    rw [ih (setAttr live q.1 q.2) n (fun p hp => h p (List.mem_cons_of_mem q hp))]
    exact getAttr_setAttr_ne live q.1 n q.2 (Ne.symm (h q (List.mem_cons_self q rest)))

theorem getAttr_eq_none_forall (a : Attrs) (n : String) (h : getAttr a n = none) :
    ∀ p ∈ a, p.1 ≠ n := by
  intro p hp
  have hf : a.find? (fun p => p.1 == n) = none := by
    unfold getAttr at h
    exact Option.map_eq_none.mp h
  have := List.find?_eq_none.mp hf p hp
  simpa using this

theorem getAttr_copyAttrs_of_some :
    ∀ (frag live : Attrs) (n : String) (v : String),
      (frag.map Prod.fst).Nodup → getAttr frag n = some v →
        getAttr (copyAttrs live frag) n = some v := by
  intro frag
  induction frag with
  | nil => intro live n v _ h; simp [getAttr] at h
  | cons q rest ih =>
    intro live n v hnd h
    rw [List.map_cons, List.nodup_cons] at hnd
    rw [copyAttrs_cons]
    by_cases hq : q.1 = n
    · have hb : (q.1 == n) = true := by simp [hq]
      have hv : v = q.2 := by
        simp [getAttr, List.find?, hb] at h
        exact h.symm
      have hnotin : ∀ p ∈ rest, p.1 ≠ n := by
        intro p hp hpn
        exact hnd.1 (by rw [hq, ← hpn]; exact List.mem_map_of_mem Prod.fst hp)
      rw [getAttr_copyAttrs_not_mem rest (setAttr live q.1 q.2) n hnotin]
      rw [hq, hv]
      exact getAttr_setAttr_self live n q.2
    · have hb : (q.1 == n) = false := by simp [hq]
      have hrest : getAttr rest n = some v := by
        simpa [getAttr, List.find?, hb] using h
      exact ih (setAttr live q.1 q.2) n v hnd.2 hrest

/-! Helper lemmas about event traces. -/

theorem openFallback_no_addReq (doc : Doc) :
    (openFallback doc).2.filter isAddReq = [] := by
  unfold openFallback
  by_cases h1 : doc.cartTrigger <;> by_cases h2 : doc.headerCartLink <;>
    simp [h1, h2, isAddReq]

theorem openCartDrawer_no_addReq (doc : Doc) :
    (openCartDrawer doc).2.filter isAddReq = [] := by
  unfold openCartDrawer
  by_cases h1 : doc.drawerView <;> by_cases h2 : doc.drawerContainer <;>
    simp [h1, h2, openFallback_no_addReq]

theorem refresh_no_addReq (env : Env) (doc : Doc) :
    (refreshAndOpenCartDrawer env doc).2.filter isAddReq = [] := by
  unfold refreshAndOpenCartDrawer
  rcases env.sections with _ | _ | fragElem
  · simp [isAddReq]
  · simp [isAddReq, openCartDrawer_no_addReq]
  · rcases fragElem with _ | f <;> rcases doc.currentCartElem with _ | cur <;>
      simp [isAddReq, openCartDrawer_no_addReq]

theorem addToCart_filter_addReq (env : Env) (v : String) (q : QVal) (doc : Doc) :
    (addToCart env v q doc).evs.filter isAddReq = [Ev.addReq v (parseIntQ q)] := by
  unfold addToCart
  rcases env.addFetch with _ | ⟨ok, jsonOk⟩
  · simp [isAddReq]
  · cases ok <;> cases jsonOk <;> rcases env.cartRead with _ | n <;>
      simp [isAddReq, refresh_no_addReq]

theorem updateCartCount_countElems (N : Nat) (doc : Doc) :
    (updateCartCount N doc).countElems =
      doc.countElems.map (fun e => { e with cartCount := toString N }) := by
  unfold updateCartCount
  rcases h : doc.headerCart with _ | badges
  · rfl
  · cases badges <;> rfl

theorem updateCartCount_headerCart_nil (N : Nat) (doc : Doc)
    (h : doc.headerCart = some []) :
    (updateCartCount N doc).headerCart = some [applyCount N (newBadge doc.nextId)] := by
  unfold updateCartCount
  rw [h]

theorem updateCartCount_headerCart_cons (N : Nat) (doc : Doc) (b : Badge)
    (rest : List Badge) (h : doc.headerCart = some (b :: rest)) :
    (updateCartCount N doc).headerCart = some (applyCount N b :: rest) := by
  unfold updateCartCount
  rw [h]

theorem applyCount_spec (N : Nat) (b : Badge) :
    (((applyCount N b).display = "flex" ∧ (applyCount N b).text = toString N) ↔ 0 < N) ∧
    (N = 0 → (applyCount N b).display = "none") ∧
    (applyCount N b).nodeId = b.nodeId := by
  unfold applyCount
  by_cases h : 0 < N
  · simp [h]
    omega
  · have hz : N = 0 := by omega
    subst hz
    simp

/-! Concrete example inputs shared by witnesses and counterexamples. -/

/-- Example DOM: one count display, a `.header--cart` container with no
badge yet, a header cart link, and none of the drawer view / container /
trigger elements. -/
def exDoc : Doc :=
  { countElems := [{ nodeId := 1, cartCount := "0" }],
    headerCart := some [],
    headerCartLink := true,
    drawerView := false, drawerContainer := false, drawerOpen := false,
    bodyOverflowHidden := false, cartTrigger := false,
    currentCartElem := none, nextId := 10 }

/-- Environment in which every network call succeeds: the add POST returns a
success status with parseable JSON, `/cart.js` reports 3 items, and the
sections fetch succeeds but the payload lacks the `cart-drawer` key. -/
def envOk : Env :=
  { addFetch := some (true, true), cartRead := some 3, sections := .noHtml }

/-- Environment in which the drawer-section fetch (or its JSON parse)
rejects; everything else succeeds. -/
def envSectionsErr : Env :=
  { addFetch := some (true, true), cartRead := some 3, sections := .fetchError }

/-- Environment in which the add POST resolves with a non-success HTTP
status. -/
def envAddFail : Env :=
  { addFetch := some (false, true), cartRead := some 3, sections := .noHtml }

/-- Example live `cart-element` inside the drawer. -/
def exCartElem : CartElem :=
  { nodeId := 5, attrs := [("b", "x"), ("c", "y")], inner := "old" }

/-- Example fragment `cart-element` from the refetched drawer section. -/
def exFrag : Frag :=
  { attrs := [("a", "1"), ("b", "2")], inner := "new" }

/-! Claim C5. -/

/-- C5: `openCartDrawer` tries its three strategies in strict priority
order and stops at the first success: a drawer view with an enclosing
container gets its open marker set and the body scroll locked; otherwise an
existing trigger is clicked; otherwise an existing header cart link is
clicked (the sole observable action in that case); with none of the three
present the call is a silent no-op. -/
theorem c5_openCartDrawer_priority (doc : Doc) :
    (doc.drawerView = true → doc.drawerContainer = true →
      openCartDrawer doc =
        ({ doc with drawerOpen := true, bodyOverflowHidden := true }, [])) ∧
    ((doc.drawerView = false ∨ doc.drawerContainer = false) →
      doc.cartTrigger = true → openCartDrawer doc = (doc, [Ev.clickTrigger])) ∧
    ((doc.drawerView = false ∨ doc.drawerContainer = false) →
      doc.cartTrigger = false → doc.headerCartLink = true →
      openCartDrawer doc = (doc, [Ev.clickHeaderLink])) ∧
    ((doc.drawerView = false ∨ doc.drawerContainer = false) →
      doc.cartTrigger = false → doc.headerCartLink = false →
      openCartDrawer doc = (doc, [])) := by
  refine ⟨?_, ?_, ?_, ?_⟩
  · intro h1 h2
    simp [openCartDrawer, h1, h2]
  · rintro (h | h) ht <;>
      by_cases hv : doc.drawerView <;>
        simp_all [openCartDrawer, openFallback]
  · rintro (h | h) ht hl <;>
      by_cases hv : doc.drawerView <;>
        simp_all [openCartDrawer, openFallback]
  · rintro (h | h) ht hl <;>
      by_cases hv : doc.drawerView <;>
        simp_all [openCartDrawer, openFallback]

/-- Witness for C5 at a DOM in which only the header cart link exists:
clicking it is the sole observable action. -/
theorem c5_witness : openCartDrawer exDoc = (exDoc, [Ev.clickHeaderLink]) :=
  (c5_openCartDrawer_priority exDoc).2.2.1 (Or.inl rfl) rfl rfl

/-! Claim C6. -/

/-- C6: `updateCartCount N` writes `N` onto every count-display element's
attribute, and (when the header cart container exists) leaves a first badge
that is visible with text `N` exactly when `N > 0`, hidden when `N = 0`. -/
theorem c6_updateCartCount (N : Nat) (doc : Doc) (badges : List Badge)
    (h : doc.headerCart = some badges) :
    (∀ e ∈ (updateCartCount N doc).countElems, e.cartCount = toString N) ∧
    ∃ b bs, (updateCartCount N doc).headerCart = some (b :: bs) ∧
      ((b.display = "flex" ∧ b.text = toString N) ↔ 0 < N) ∧
      (N = 0 → b.display = "none") := by
  constructor
  · intro e he
    rw [updateCartCount_countElems] at he
    obtain ⟨a, _, rfl⟩ := List.mem_map.mp he
    rfl
  · cases badges with
    | nil =>
      exact ⟨applyCount N (newBadge doc.nextId), [],
        updateCartCount_headerCart_nil N doc h,
        (applyCount_spec N _).1, (applyCount_spec N _).2.1⟩
    | cons b rest =>
      exact ⟨applyCount N b, rest,
        updateCartCount_headerCart_cons N doc b rest h,
        (applyCount_spec N b).1, (applyCount_spec N b).2.1⟩

/-- Witness for C6 at count 3 on the example DOM. -/
theorem c6_witness :
    (∀ e ∈ (updateCartCount 3 exDoc).countElems, e.cartCount = toString 3) ∧
    ∃ b bs, (updateCartCount 3 exDoc).headerCart = some (b :: bs) ∧
      ((b.display = "flex" ∧ b.text = toString 3) ↔ 0 < 3) ∧
      (3 = 0 → b.display = "none") :=
  c6_updateCartCount 3 exDoc [] rfl

/-! Claim C7. -/

/-- C7: the drawer merge preserves the live element's node identity,
replaces its inner content with the fragment's, copies every fragment
attribute onto it (overwriting on name collision), and leaves attributes
absent from the fragment unchanged. -/
theorem c7_mergeCartElem (cur : CartElem) (f : Frag)
    (hnd : (f.attrs.map Prod.fst).Nodup) :
    (mergeCartElem cur f).nodeId = cur.nodeId ∧
    (mergeCartElem cur f).inner = f.inner ∧
    (∀ n v, getAttr f.attrs n = some v →
      getAttr (mergeCartElem cur f).attrs n = some v) ∧
    (∀ n, getAttr f.attrs n = none →
      getAttr (mergeCartElem cur f).attrs n = getAttr cur.attrs n) := by
  refine ⟨rfl, rfl, ?_, ?_⟩
  · intro n v hv
    exact getAttr_copyAttrs_of_some f.attrs cur.attrs n v hnd hv
  · intro n hn
    exact getAttr_copyAttrs_not_mem f.attrs cur.attrs n
      (getAttr_eq_none_forall f.attrs n hn)

/-- Witness for C7 on a concrete merge: identity kept, colliding attribute
`b` overwritten from the fragment, live-only attribute `c` untouched. -/
theorem c7_witness :
    (mergeCartElem exCartElem exFrag).nodeId = exCartElem.nodeId ∧
    getAttr (mergeCartElem exCartElem exFrag).attrs "b" = some "2" ∧
    getAttr (mergeCartElem exCartElem exFrag).attrs "c" = getAttr exCartElem.attrs "c" :=
  ⟨(c7_mergeCartElem exCartElem exFrag (by decide)).1,
   (c7_mergeCartElem exCartElem exFrag (by decide)).2.2.1 "b" "2" (by decide),
   (c7_mergeCartElem exCartElem exFrag (by decide)).2.2.2 "c" (by decide)⟩

/-! Claim C1. -/

/-- Counterexample to C1 as stated: when the drawer-section fetch (or its
JSON parse) rejects, the failure is caught and logged, but no attempt to
open the drawer is made — the `this.openCartDrawer()` call sits inside the
`try` block, so the open attempt is not unconditional. -/
theorem c1_cex :
    Ev.openDrawerInvoked ∉ (refreshAndOpenCartDrawer envSectionsErr exDoc).2 ∧
    Ev.log "Error refreshing cart:" ∈ (refreshAndOpenCartDrawer envSectionsErr exDoc).2 := by
  decide

/-- C1 (amended): any failure during the drawer-fragment fetch or parse is
caught and logged and never propagates past `refreshAndOpenCartDrawer`, but
the attempt to open the drawer is made exactly when the fetch and JSON
parse succeed; a missing fragment or missing merge elements still lead to
the open attempt, while a fetch/parse failure skips it. -/
theorem c1_amended (env : Env) (doc : Doc) :
    (Ev.openDrawerInvoked ∈ (refreshAndOpenCartDrawer env doc).2 ↔
      env.sections ≠ SectionsResp.fetchError) ∧
    (env.sections = SectionsResp.fetchError →
      refreshAndOpenCartDrawer env doc =
        (doc, [Ev.sectionsReq, Ev.log "Error refreshing cart:"])) := by
  rcases hs : env.sections with _ | _ | fragElem <;>
    simp [refreshAndOpenCartDrawer, hs]

/-- Witness for the amended C1 at a rejecting sections fetch. -/
theorem c1_amended_witness :
    refreshAndOpenCartDrawer envSectionsErr exDoc =
      (exDoc, [Ev.sectionsReq, Ev.log "Error refreshing cart:"]) :=
  (c1_amended envSectionsErr exDoc).2 rfl

/-! Claim C2. -/

/-- A cart-add form whose quantity field holds a non-numeric string. -/
def exFormNonNumeric : Form :=
  { action := "/cart/add", idField := some "123", quantityField := some "abc" }

/-- A cart-add form without a quantity field. -/
def exFormNoQty : Form :=
  { action := "/cart/add", idField := some "77", quantityField := none }

/-- Counterexample to C2 as stated: submitting a cart-add form whose
quantity field holds the non-numeric string "abc" issues its mutation
request with quantity `NaN` (serialised as JSON `null`, modelled `none`),
which is neither an integer at least 1 nor the default 1. -/
theorem c2_cex :
    ¬ (∀ e ∈ (onSubmit envOk exFormNonNumeric exDoc).evs, ∀ i q,
        e = Ev.addReq i q → ∃ n : Int, q = some n ∧ 1 ≤ n) := by
  intro hcl
  have hmem : Ev.addReq "123" none ∈ (onSubmit envOk exFormNonNumeric exDoc).evs := by
    decide
  obtain ⟨n, hn, _⟩ := hcl _ hmem "123" none rfl
  exact Option.noConfusion hn

theorem handleFormSubmit_filter (env : Env) (form : Form) (doc : Doc) (v : String)
    (hid : form.idField = some v) (hv : v ≠ "") :
    (handleFormSubmit env form doc).2.filter isAddReq =
      [Ev.addReq v (formQuantity form)] := by
  have hvb : (v == "") = false := by simpa using hv
  unfold handleFormSubmit
  rw [hid]
  rcases hr : (addToCart env v (quantityArg form.quantityField) doc).result with _ | e <;>
    simp [hvb, hr, addToCart_filter_addReq, formQuantity, isAddReq]

/-- C2 (amended): every intercepted cart-add submission with a truthy id
issues exactly one mutation request, carrying the form's id; its quantity
is exactly 1 when the quantity field is missing (or empty), and otherwise
is `parseInt` of the field's value — which can be `NaN` (sent as `null`),
zero, or negative, so it is not always an integer at least 1.  Navigation
is suppressed in every case. -/
theorem c2_amended (env : Env) (form : Form) (doc : Doc) (v : String)
    (ha : isCartAddAction form.action = true)
    (hid : form.idField = some v) (hv : v ≠ "") :
    (onSubmit env form doc).evs.filter isAddReq =
      [Ev.addReq v (formQuantity form)] ∧
    (form.quantityField = none → formQuantity form = some 1) ∧
    (onSubmit env form doc).prevented = true := by
  refine ⟨?_, ?_, ?_⟩
  · simp only [onSubmit, ha, if_true]
    exact handleFormSubmit_filter env form doc v hid hv
  · intro hq
    simp [formQuantity, quantityArg, hq, parseIntQ]
  · simp [onSubmit, ha]

/-- Witness for the amended C2: a form with no quantity field sends exactly
one request with quantity 1. -/
theorem c2_amended_witness :
    (onSubmit envOk exFormNoQty exDoc).evs.filter isAddReq =
      [Ev.addReq "77" (formQuantity exFormNoQty)] ∧
    (exFormNoQty.quantityField = none → formQuantity exFormNoQty = some 1) ∧
    (onSubmit envOk exFormNoQty exDoc).prevented = true :=
  c2_amended envOk exFormNoQty exDoc "77" (by decide) rfl (by decide)

/-! Claim C3. -/

/-- C3: a non-success HTTP status on the add request makes `addToCart` fail
with the mutation-failed error, leaves the DOM — count displays and badge —
unchanged, and reaches neither the cart-count read nor the drawer
refresh/open steps. -/
theorem c3_addToCart_failure (env : Env) (v : String) (q : QVal) (doc : Doc)
    (jsonOk : Bool) (h : env.addFetch = some (false, jsonOk)) :
    (addToCart env v q doc).doc = doc ∧
    (addToCart env v q doc).result = CartResult.err JsErr.mutationFailed ∧
    Ev.cartReq ∉ (addToCart env v q doc).evs ∧
    Ev.sectionsReq ∉ (addToCart env v q doc).evs ∧
    Ev.openDrawerInvoked ∉ (addToCart env v q doc).evs := by
  have hmain : addToCart env v q doc =
      { doc := doc, evs := [Ev.addReq v (parseIntQ q), Ev.log "Add to cart error:"],
        result := .err .mutationFailed } := by
    unfold addToCart
    rw [h]
    rfl
  rw [hmain]
  simp

/-- Witness for C3 at a concrete failing status. -/
theorem c3_witness :
    (addToCart envAddFail "9" (QVal.str "2") exDoc).doc = exDoc ∧
    (addToCart envAddFail "9" (QVal.str "2") exDoc).result =
      CartResult.err JsErr.mutationFailed ∧
    Ev.cartReq ∉ (addToCart envAddFail "9" (QVal.str "2") exDoc).evs ∧
    Ev.sectionsReq ∉ (addToCart envAddFail "9" (QVal.str "2") exDoc).evs ∧
    Ev.openDrawerInvoked ∉ (addToCart envAddFail "9" (QVal.str "2") exDoc).evs :=
  c3_addToCart_failure envAddFail "9" (QVal.str "2") exDoc true rfl

/-! Claim C4. -/

/-- Counterexample to C4 as stated: on a DOM whose header cart container
holds no badge, an update with count 0 still creates the badge (immediately
hidden) — creation is not restricted to the first update with count > 0. -/
theorem c4_cex :
    exDoc.headerCart = some [] ∧
    (updateCartCount 0 exDoc).headerCart =
      some [{ nodeId := 10, text := "", display := "none" }] := by
  decide

/-- C4 (amended): at most one badge ever exists under the header cart
control; once present it is reused — the first badge keeps its node
identity and no badge is ever removed; the badge is created on the first
update that finds none, whatever the count (a count of 0 merely creates it
hidden); and count 0 hides rather than deletes it. -/
theorem c4_amended (N : Nat) (doc : Doc) (badges : List Badge)
    (h : doc.headerCart = some badges) :
    ∃ bs, (updateCartCount N doc).headerCart = some bs ∧
      bs.length = max 1 badges.length ∧
      (badges.length ≤ 1 → bs.length ≤ 1) ∧
      (∀ b rest, badges = b :: rest →
        ∃ b2, bs = b2 :: rest ∧ b2.nodeId = b.nodeId) ∧
      (badges = [] → ∃ b2, bs = [b2] ∧ (N = 0 → b2.display = "none")) := by
  cases badges with
  | nil =>
    refine ⟨[applyCount N (newBadge doc.nextId)],
      updateCartCount_headerCart_nil N doc h, by simp, by simp, ?_, ?_⟩
    · intro b rest hbr
      simp at hbr
    · intro _
      exact ⟨applyCount N (newBadge doc.nextId), rfl, (applyCount_spec N _).2.1⟩
  | cons b rest =>
    refine ⟨applyCount N b :: rest,
      updateCartCount_headerCart_cons N doc b rest h, by simp, by simp, ?_, ?_⟩
    · intro b' rest' hbr
      injection hbr with h1 h2
      subst h1
      subst h2
      exact ⟨applyCount N b, rfl, (applyCount_spec N b).2.2⟩
    · intro hh
      simp at hh

/-- Example DOM in which the badge already exists. -/
def exDocBadge : Doc :=
  { exDoc with headerCart := some [{ nodeId := 4, text := "2", display := "flex" }] }

/-- Witness for the amended C4 on a DOM that already has a badge, updated
with count 0: the badge is kept (same node) and hidden, not removed. -/
theorem c4_amended_witness :
    ∃ bs, (updateCartCount 0 exDocBadge).headerCart = some bs ∧
      bs.length = max 1 [({ nodeId := 4, text := "2", display := "flex" } : Badge)].length ∧
      ([({ nodeId := 4, text := "2", display := "flex" } : Badge)].length ≤ 1 →
        bs.length ≤ 1) ∧
      (∀ b rest,
        [({ nodeId := 4, text := "2", display := "flex" } : Badge)] = b :: rest →
          ∃ b2, bs = b2 :: rest ∧ b2.nodeId = b.nodeId) ∧
      ([({ nodeId := 4, text := "2", display := "flex" } : Badge)] = [] →
        ∃ b2, bs = [b2] ∧ (0 = 0 → b2.display = "none")) :=
  c4_amended 0 exDocBadge [{ nodeId := 4, text := "2", display := "flex" }] rfl

/-! Claim C8. -/

/-- A cart-add form without an id field. -/
def exFormNoId : Form :=
  { action := "https://shop.example/cart/add", idField := none,
    quantityField := some "2" }

/-- C8: an intercepted cart-add submission whose id field is absent issues
no network request — the failure is only logged — while the default form
submission is still cancelled, so no navigation occurs. -/
theorem c8_missing_id (env : Env) (form : Form) (doc : Doc)
    (ha : isCartAddAction form.action = true) (hid : form.idField = none) :
    onSubmit env form doc =
      { doc := doc, evs := [Ev.log "No variant ID in form"], prevented := true } ∧
    ∀ i q, Ev.addReq i q ∉ (onSubmit env form doc).evs := by
  have hmain : onSubmit env form doc =
      { doc := doc, evs := [Ev.log "No variant ID in form"], prevented := true } := by
    simp [onSubmit, ha, handleFormSubmit, hid]
  refine ⟨hmain, ?_⟩
  intro i q
  rw [hmain]
  simp

/-- Witness for C8 at a concrete id-less form. -/
theorem c8_witness :
    onSubmit envOk exFormNoId exDoc =
      { doc := exDoc, evs := [Ev.log "No variant ID in form"], prevented := true } ∧
    ∀ i q, Ev.addReq i q ∉ (onSubmit envOk exFormNoId exDoc).evs :=
  c8_missing_id envOk exFormNoId exDoc (by decide) rfl

/-! Claim C9. -/

/-- C9: the quick-add handler is a complete no-op — no network call, no
busy or disabled mutation — when the element lacks a `data-id` or an inner
button; otherwise the element is marked busy and the button disabled before
the mutation request is issued, both stay set with a 1000 ms revert
scheduled on success, and both are reverted immediately with nothing
scheduled on failure. -/
theorem c9_handleQuickAdd (env : Env) (el : QuickAddEl) (doc : Doc) :
    ((getAttr el.attrs "data-id" = none ∨ el.hasButton = false) →
      handleQuickAdd env el doc =
        { doc := doc, el := el, evs := [], pendingRevert := none }) ∧
    (∀ v, getAttr el.attrs "data-id" = some v → v ≠ "" → el.hasButton = true →
      (∃ rest, (handleQuickAdd env el doc).evs =
          Ev.setBusy true :: Ev.setDisabled true :: rest) ∧
      getAttr (busyQuickAdd el).attrs "aria-busy" = some "true" ∧
      (busyQuickAdd el).buttonDisabled = true ∧
      ((addToCart env v (QVal.num 1) doc).result = CartResult.ok →
        (handleQuickAdd env el doc).el = busyQuickAdd el ∧
        (handleQuickAdd env el doc).pendingRevert = some 1000) ∧
      ((addToCart env v (QVal.num 1) doc).result ≠ CartResult.ok →
        (handleQuickAdd env el doc).el = revertQuickAdd (busyQuickAdd el) ∧
        getAttr (revertQuickAdd (busyQuickAdd el)).attrs "aria-busy" = some "false" ∧
        (revertQuickAdd (busyQuickAdd el)).buttonDisabled = false ∧
        (handleQuickAdd env el doc).pendingRevert = none)) := by
  constructor
  · intro hno
    rcases hg : getAttr el.attrs "data-id" with _ | v
    · simp [handleQuickAdd, hg]
    · rcases hno with hno | hno
      · rw [hg] at hno
        exact absurd hno (by simp)
      · by_cases hv : v == "" <;> simp [handleQuickAdd, hg, hv, hno]
  · intro v hg hv hb
    have hvb : (v == "") = false := by simpa using hv
    rcases hr : (addToCart env v (QVal.num 1) doc).result with _ | e
    · have hmain : handleQuickAdd env el doc =
          { doc := (addToCart env v (QVal.num 1) doc).doc,
            el := busyQuickAdd el,
            evs := Ev.setBusy true :: Ev.setDisabled true ::
                   ((addToCart env v (QVal.num 1) doc).evs ++ [Ev.scheduleRevert 1000]),
            pendingRevert := some 1000 } := by
        unfold handleQuickAdd
        rw [hg]
        simp [hvb, hb, hr]
      rw [hmain]
      refine ⟨⟨_, rfl⟩, getAttr_setAttr_self el.attrs "aria-busy" "true", rfl,
        fun _ => ⟨rfl, rfl⟩, fun hcontra => absurd rfl hcontra⟩
    · have hmain : handleQuickAdd env el doc =
          { doc := (addToCart env v (QVal.num 1) doc).doc,
            el := revertQuickAdd (busyQuickAdd el),
            evs := Ev.setBusy true :: Ev.setDisabled true ::
                   ((addToCart env v (QVal.num 1) doc).evs ++
                     [Ev.log "Quick add error:", Ev.setBusy false, Ev.setDisabled false]),
            pendingRevert := none } := by
        unfold handleQuickAdd
        rw [hg]
        simp [hvb, hb, hr]
      rw [hmain]
      refine ⟨⟨_, rfl⟩, getAttr_setAttr_self el.attrs "aria-busy" "true", rfl,
        ?_, fun _ => ⟨rfl, getAttr_setAttr_self _ "aria-busy" "false", rfl, rfl⟩⟩
      intro hok
      simp [hr] at hok

/-- A quick-add element with a variant id, an extra (ignored) quantity
attribute, and an inner button. -/
def exQuickAdd : QuickAddEl :=
  { attrs := [("data-id", "55"), ("data-quantity", "4")],
    hasButton := true, buttonDisabled := false }

/-- A quick-add element without a `data-id` attribute. -/
def exQuickAddNoId : QuickAddEl :=
  { attrs := [("data-form", "false")], hasButton := true, buttonDisabled := false }

/-- Witness for C9: the id-less element makes the handler a no-op, and the
complete element (in the all-success environment) ends busy and disabled
with the 1000 ms revert scheduled. -/
theorem c9_witness :
    handleQuickAdd envOk exQuickAddNoId exDoc =
      { doc := exDoc, el := exQuickAddNoId, evs := [], pendingRevert := none } ∧
    (handleQuickAdd envOk exQuickAdd exDoc).el = busyQuickAdd exQuickAdd ∧
    (handleQuickAdd envOk exQuickAdd exDoc).pendingRevert = some 1000 :=
  ⟨(c9_handleQuickAdd envOk exQuickAddNoId exDoc).1 (Or.inl (by decide)),
   ((c9_handleQuickAdd envOk exQuickAdd exDoc).2 "55" (by decide) (by decide)
      rfl).2.2.2.1 (by decide)⟩

/-! Claim C10. -/

/-- C10: every mutation request issued from the quick-add path carries
quantity exactly 1, regardless of any other attributes (such as a quantity)
on the element — quantity selection is only possible through the form
path. -/
theorem c10_quickAdd_quantity (env : Env) (el : QuickAddEl) (doc : Doc)
    (i : String) (q : Option Int)
    (h : Ev.addReq i q ∈ (handleQuickAdd env el doc).evs) : q = some 1 := by
  unfold handleQuickAdd at h
  rcases hg : getAttr el.attrs "data-id" with _ | v
  · rw [hg] at h
    simp at h
  · rw [hg] at h
    by_cases hv : v == ""
    · simp [hv] at h
    · by_cases hb : el.hasButton
      · have hmem2 : Ev.addReq i q ∈ (addToCart env v (QVal.num 1) doc).evs := by
          rcases hr : (addToCart env v (QVal.num 1) doc).result with _ | e <;>
            (simp [hv, hb, hr] at h; exact h)
        have hfil : Ev.addReq i q ∈
            (addToCart env v (QVal.num 1) doc).evs.filter isAddReq :=
          List.mem_filter.mpr ⟨hmem2, rfl⟩
        rw [addToCart_filter_addReq] at hfil
        simp [parseIntQ] at hfil
        exact hfil.2
      · simp [hv, hb] at h

/-- Witness for C10: the quick-add element carrying a quantity attribute of
4 still issues its request with quantity 1. -/
theorem c10_witness :
    Ev.addReq "55" (some 1) ∈ (handleQuickAdd envOk exQuickAdd exDoc).evs ∧
    (some 1 : Option Int) = some 1 :=
  ⟨by decide, c10_quickAdd_quantity envOk exQuickAdd exDoc "55" (some 1) (by decide)⟩

end AjaxCart
